import Mathlib

/-!
Shallow embedding of the WebSocket relay worker in `src/index.js`
(gemini-playground).

The relay session (`handleWebSocket`, lines 57-184) is modelled as a state
machine: `SessionState` holds the fields of one session (the pending-message
buffer, the readiness of the two sockets, the establishment timer) together
with observable traces (frames delivered to each side, close codes/reasons).
Each event listener of the source becomes a function on `SessionState`, and
`step` dispatches one runtime event to its listener, guarded by the event's
deliverability (a message only arrives on an open socket, `open` only fires
on a connecting socket, a single-shot timer only fires while armed).

`handleAPIRequest` (lines 186-206) is modelled as a function of the outcome
of the `Promise.race`, and the upgrade check of `handleWebSocket`
(lines 58-60) as a function of the `Upgrade` header.
-/

namespace GeminiPlayground

/-- `WEBSOCKET_TIMEOUT` (line 1): establishment timeout in milliseconds. -/
def WEBSOCKET_TIMEOUT : Nat := 10000

/-- `API_TIMEOUT` (line 2): HTTP forwarding deadline in milliseconds. -/
def API_TIMEOUT : Nat := 15000

/-- `MAX_PENDING_MESSAGES` (line 73): capacity of the pending buffer. -/
def MAX_PENDING_MESSAGES : Nat := 10

/-- One WebSocket frame: text or binary payload, opaque to the relay. -/
inductive Frame where
  | text (s : String)
  | binary (b : List Nat)
deriving DecidableEq, Repr

/-- The readiness states of a socket that the source distinguishes: it only
ever compares `readyState` against `WebSocket.OPEN`, and a close (initiated
or observed) leaves `OPEN`; `CLOSING` and `CLOSED` are merged. -/
inductive ReadyState where
  | CONNECTING
  | OPEN
  | CLOSED
deriving DecidableEq, Repr

/-- The mutable state of one relay session created by `handleWebSocket`,
plus observable traces.  `pendingMessages`, the two `readyState`s and the
timer correspond directly to source state; `sentToTarget` / `sentToClient`
record the frames whose `send` call succeeded on each leg;
`proxyCloseInfo` / `targetCloseInfo` record the code/reason a socket was
closed with.  `opened` (the target `open` event has fired) and
`clientArrived` (at least one client message was delivered) are history
flags used to state temporal properties. -/
structure SessionState where
  pendingMessages : List Frame
  targetReady : ReadyState
  proxyReady : ReadyState
  timerActive : Bool
  opened : Bool
  clientArrived : Bool
  sentToTarget : List Frame
  sentToClient : List Frame
  proxyCloseInfo : Option (Nat × String)
  targetCloseInfo : Option (Nat × String)
deriving DecidableEq, Repr

/-- `proxy.close(code, reason)`: closing an already-closed socket is a
no-op; otherwise the socket leaves service with the given code/reason. -/
def closeProxySocket (code : Nat) (reason : String) (s : SessionState) : SessionState :=
  if s.proxyReady = ReadyState.CLOSED then s
  else { s with proxyReady := ReadyState.CLOSED, proxyCloseInfo := some (code, reason) }

/-- `targetWebSocket.close(code, reason)`: same semantics on the upstream
socket. -/
def closeTargetSocket (code : Nat) (reason : String) (s : SessionState) : SessionState :=
  if s.targetReady = ReadyState.CLOSED then s
  else { s with targetReady := ReadyState.CLOSED, targetCloseInfo := some (code, reason) }

/-- The drain loop of the `open` listener (lines 93-100): each pending
message is sent in order inside its own try/catch; `ok i` tells whether the
`send` of the `i`-th pending message succeeds.  Returns the frames actually
delivered, in order. -/
def drainOk (ok : Nat → Bool) : Nat → List Frame → List Frame
  | _, [] => []
  | i, f :: rest =>
      if ok i then f :: drainOk ok (i + 1) rest else drainOk ok (i + 1) rest

/-- `proxy` `"message"` listener (lines 104-128).  `ok` tells whether
`targetWebSocket.send` succeeds (the catch only logs). -/
def onProxyMessage (f : Frame) (ok : Bool) (s : SessionState) : SessionState :=
  let s := { s with clientArrived := true }
  if s.targetReady = ReadyState.OPEN then
    if ok then { s with sentToTarget := s.sentToTarget ++ [f] } else s
  else
    if MAX_PENDING_MESSAGES ≤ s.pendingMessages.length then
      closeProxySocket 1008 "Too many pending messages" s
    else
      { s with pendingMessages := s.pendingMessages ++ [f] }

/-- `targetWebSocket` `"open"` listener (lines 87-102): clear the timer,
flush the pending buffer in order, then empty it. -/
def onTargetOpen (ok : Nat → Bool) (s : SessionState) : SessionState :=
  { s with timerActive := false,
           sentToTarget := s.sentToTarget ++ drainOk ok 0 s.pendingMessages,
           pendingMessages := [],
           opened := true }

/-- `targetWebSocket` `"message"` listener (lines 130-145): forward to the
client when it is open; the try/catch swallows a failing `send`. -/
def onTargetMessage (f : Frame) (ok : Bool) (s : SessionState) : SessionState :=
  if s.proxyReady = ReadyState.OPEN then
    if ok then { s with sentToClient := s.sentToClient ++ [f] } else s
  else s

/-- The `setTimeout` callback (lines 80-85): with an empty pending buffer,
close the upstream socket with 1000 / "No activity after connection";
otherwise do nothing. -/
def onTimeout (s : SessionState) : SessionState :=
  if s.pendingMessages.length = 0 then
    closeTargetSocket 1000 "No activity after connection" s
  else s

/-- `targetWebSocket` `"close"` listener (lines 147-158): mirror the close
to the client when the client is still open. -/
def onTargetClose (code : Nat) (reason : String) (s : SessionState) : SessionState :=
  if s.proxyReady = ReadyState.OPEN then closeProxySocket code reason s else s

/-- `proxy` `"close"` listener (lines 160-170): mirror the close to the
upstream socket when it is open. -/
def onProxyClose (code : Nat) (reason : String) (s : SessionState) : SessionState :=
  if s.targetReady = ReadyState.OPEN then closeTargetSocket code reason s else s

/-- The runtime events a session can receive.  Send outcomes (`ok`) model
whether the corresponding `send` call throws. -/
inductive Event where
  | clientMessage (f : Frame) (ok : Bool)
  | targetOpen (ok : Nat → Bool)
  | targetMessage (f : Frame) (ok : Bool)
  | timerFire
  | clientClose (code : Nat) (reason : String)
  | targetClose (code : Nat) (reason : String)
  | targetError

/-- Dispatch one event to its listener.  Guards model deliverability:
message events are only delivered on an open socket, `open` only fires on a
connecting socket, a close event fires once per socket, and the single-shot
timer only fires while armed (firing consumes it).  The `"error"` listener
(lines 172-178) only logs and changes nothing. -/
def step (e : Event) (s : SessionState) : SessionState :=
  match e with
  | Event.clientMessage f ok =>
      if s.proxyReady = ReadyState.OPEN then onProxyMessage f ok s else s
  | Event.targetOpen ok =>
      if s.targetReady = ReadyState.CONNECTING then
        onTargetOpen ok { s with targetReady := ReadyState.OPEN }
      else s
  | Event.targetMessage f ok =>
      if s.targetReady = ReadyState.OPEN then onTargetMessage f ok s else s
  | Event.timerFire =>
      if s.timerActive then onTimeout { s with timerActive := false } else s
  | Event.clientClose c r =>
      if s.proxyReady = ReadyState.CLOSED then s
      else onProxyClose c r
        { s with proxyReady := ReadyState.CLOSED, proxyCloseInfo := some (c, r) }
  | Event.targetClose c r =>
      if s.targetReady = ReadyState.CLOSED then s
      else onTargetClose c r
        { s with targetReady := ReadyState.CLOSED, targetCloseInfo := some (c, r) }
  | Event.targetError => s

/-- Run a sequence of events. -/
def run (es : List Event) (s : SessionState) : SessionState :=
  es.foldl (fun t e => step e t) s

/-- The session state right after `handleWebSocket` sets up (lines 68-85):
client accepted (open), upstream connecting, empty buffer, timer armed. -/
def initialState : SessionState :=
  { pendingMessages := []
    targetReady := ReadyState.CONNECTING
    proxyReady := ReadyState.OPEN
    timerActive := true
    opened := false
    clientArrived := false
    sentToTarget := []
    sentToClient := []
    proxyCloseInfo := none
    targetCloseInfo := none }

/-- An HTTP response as far as the embedded code observes it. -/
structure HttpResponse where
  status : Nat
  body : String
  contentType : Option String
deriving DecidableEq, Repr

/-- A rejection value caught by `handleAPIRequest`'s catch block:
whether it `instanceof Error`, its `message`, and its `status` property
(absent modelled as `none`). -/
structure RejectValue where
  isError : Bool
  message : String
  status : Option Nat
deriving DecidableEq, Repr

/-- JS `error.status || 500` (line 198): an absent (or zero, i.e. falsy)
status falls back to 500. -/
def jsStatusOr500 : Option Nat → Nat
  | none => 500
  | some 0 => 500
  | some n => n

/-- The catch block of `handleAPIRequest` (lines 195-205). -/
def errorResponse (v : RejectValue) : HttpResponse :=
  { status := jsStatusOr500 v.status
    body := if v.isError then v.message else "Unknown error occurred"
    contentType := some "text/plain;charset=UTF-8" }

/-- Outcome of `Promise.race([responsePromise, timeoutPromise])`
(line 194): the forwarding call resolves first, rejects first, or the
deadline elapses first. -/
inductive ApiOutcome where
  | resolved (r : HttpResponse)
  | rejected (v : RejectValue)
  | timedOut
deriving Repr

/-- `handleAPIRequest` (lines 186-206) as a function of the race outcome:
the timeout path rejects with `new Error('API request timeout')` (no
`status`) and flows through the same catch block. -/
def handleAPIRequest : ApiOutcome → HttpResponse
  | ApiOutcome.resolved r => r
  | ApiOutcome.rejected v => errorResponse v
  | ApiOutcome.timedOut =>
      errorResponse { isError := true, message := "API request timeout", status := none }

/-- The upgrade check at the top of `handleWebSocket` (lines 58-60):
`some response` means the request is rejected with that response, `none`
means the socket path proceeds. -/
def handleWebSocketGate (upgradeHeader : Option String) : Option HttpResponse :=
  if upgradeHeader = some "websocket" then none
  else some { status := 400, body := "Expected WebSocket connection", contentType := none }

/-- The router's websocket dispatch (line 10): a request reaches
`handleWebSocket` exactly when its `Upgrade` header equals `websocket`. -/
def routesToWebSocket (upgradeHeader : Option String) : Bool :=
  upgradeHeader = some "websocket"

/-- Reachable-state invariant of a session: the buffer respects its bound;
the client socket is never in a connecting state (it is accepted up front);
an open upstream implies a cleared timer; an armed timer after any client
activity implies a non-empty buffer; and once the `open` drain has run the
buffer stays empty and the upstream stays open unless the client side is
already closed. -/
def Inv (s : SessionState) : Prop :=
  s.pendingMessages.length ≤ MAX_PENDING_MESSAGES ∧
  s.proxyReady ≠ ReadyState.CONNECTING ∧
  (s.targetReady = ReadyState.OPEN → s.timerActive = false) ∧
  (s.timerActive = true → s.clientArrived = true → s.pendingMessages ≠ []) ∧
  (s.opened = true → s.pendingMessages = [] ∧
    (s.targetReady = ReadyState.OPEN ∨ s.proxyReady = ReadyState.CLOSED))

theorem run_nil (s : SessionState) : run [] s = s := rfl

theorem run_cons (e : Event) (es : List Event) (s : SessionState) :
    run (e :: es) s = run es (step e s) := rfl

theorem run_append (es1 es2 : List Event) (s : SessionState) :
    run (es1 ++ es2) s = run es2 (run es1 s) := by
  simp [run, List.foldl_append]

theorem drainOk_length_le (ok : Nat → Bool) (i : Nat) (l : List Frame) :
    (drainOk ok i l).length ≤ l.length := by
  induction l generalizing i with
  | nil => simp [drainOk]
  | cons f rest ih =>
      simp only [drainOk, List.length_cons]
      split
      · simpa using Nat.succ_le_succ (ih (i + 1))
      · exact Nat.le_succ_of_le (ih (i + 1))

theorem drainOk_all_true (i : Nat) (l : List Frame) :
    drainOk (fun _ => true) i l = l := by
  induction l generalizing i with
  | nil => rfl
  | cons f rest ih => simp [drainOk, ih]

theorem inv_initialState : Inv initialState := by
  refine ⟨?_, ?_, ?_, ?_, ?_⟩ <;> simp [initialState, MAX_PENDING_MESSAGES]

theorem inv_step (e : Event) (s : SessionState) (h : Inv s) : Inv (step e s) := by
  obtain ⟨h1, h2, h3, h4, h5⟩ := h
  have hpc : s.proxyReady = ReadyState.OPEN ∨ s.proxyReady = ReadyState.CLOSED := by
    cases h' : s.proxyReady <;> simp_all
  rcases hpc with hpo | hpo <;>
  cases e <;>
    simp only [step, onProxyMessage, onTargetOpen, onTargetMessage, onTimeout,
      onProxyClose, onTargetClose, closeProxySocket, closeTargetSocket] <;>
    (try split_ifs) <;>
    (refine ⟨?_, ?_, ?_, ?_, ?_⟩ <;>
      simp_all [MAX_PENDING_MESSAGES, ← List.length_eq_zero] <;>
      intros <;> omega)

theorem inv_run (es : List Event) (s : SessionState) (h : Inv s) : Inv (run es s) := by
  induction es generalizing s with
  | nil => exact h
  | cons e es ih => exact ih (step e s) (inv_step e s h)

theorem opened_step (e : Event) (s : SessionState) (h : s.opened = true) :
    (step e s).opened = true := by
  cases e <;>
    simp only [step, onProxyMessage, onTargetOpen, onTargetMessage, onTimeout,
      onProxyClose, onTargetClose, closeProxySocket, closeTargetSocket] <;>
    (try split_ifs) <;> simp_all

theorem opened_run (es : List Event) (s : SessionState) (h : s.opened = true) :
    (run es s).opened = true := by
  induction es generalizing s with
  | nil => exact h
  | cons e es ih => exact ih (step e s) (opened_step e s h)

theorem proxyClosed_step (e : Event) (s : SessionState)
    (hp : s.proxyReady = ReadyState.CLOSED) :
    (step e s).proxyReady = ReadyState.CLOSED ∧
    (step e s).sentToTarget.length + (step e s).pendingMessages.length ≤
      s.sentToTarget.length + s.pendingMessages.length := by
  cases e
  case targetOpen ok =>
    simp only [step, onTargetOpen]
    split_ifs with h
    · refine ⟨by simp [hp], ?_⟩
      have := drainOk_length_le ok 0 s.pendingMessages
      simp only [List.length_append, List.length_nil]
      omega
    · exact ⟨hp, le_refl _⟩
  all_goals
    simp only [step, onProxyMessage, onTargetMessage, onTimeout,
      onProxyClose, onTargetClose, closeProxySocket, closeTargetSocket] <;>
    (try split_ifs) <;> (refine ⟨?_, ?_⟩ <;> simp_all)

theorem proxyClosed_run (es : List Event) (s : SessionState)
    (hp : s.proxyReady = ReadyState.CLOSED) :
    (run es s).proxyReady = ReadyState.CLOSED ∧
    (run es s).sentToTarget.length + (run es s).pendingMessages.length ≤
      s.sentToTarget.length + s.pendingMessages.length := by
  induction es generalizing s with
  | nil => exact ⟨hp, le_refl _⟩
  | cons e es ih =>
      obtain ⟨h1, h2⟩ := proxyClosed_step e s hp
      obtain ⟨g1, g2⟩ := ih (step e s) h1
      exact ⟨g1, le_trans g2 h2⟩

theorem noTargetClose_step_info (e : Event) (s : SessionState)
    (hp : s.proxyReady = ReadyState.CLOSED)
    (he : ∀ a b, e ≠ Event.targetClose a b) :
    (step e s).proxyReady = ReadyState.CLOSED ∧
    ((step e s).targetCloseInfo = s.targetCloseInfo ∨
      ((step e s).targetCloseInfo = some (1000, "No activity after connection") ∧
        e = Event.timerFire)) := by
  cases e
  case targetClose c r => exact absurd rfl (he c r)
  case timerFire =>
    simp only [step, onTimeout, closeTargetSocket]
    split_ifs <;> simp_all
  all_goals
    simp only [step, onProxyMessage, onTargetOpen, onTargetMessage,
      onProxyClose, closeProxySocket, closeTargetSocket] <;>
    (try split_ifs) <;> (refine ⟨?_, Or.inl ?_⟩ <;> simp_all)

theorem noTargetClose_run_info (es : List Event) (s : SessionState)
    (hp : s.proxyReady = ReadyState.CLOSED)
    (hn : ∀ a b, Event.targetClose a b ∉ es) :
    (run es s).proxyReady = ReadyState.CLOSED ∧
    ((run es s).targetCloseInfo = s.targetCloseInfo ∨
      ((run es s).targetCloseInfo = some (1000, "No activity after connection") ∧
        Event.timerFire ∈ es)) := by
  induction es generalizing s with
  | nil => exact ⟨hp, Or.inl rfl⟩
  | cons e es ih =>
      have hne : ∀ a b, e ≠ Event.targetClose a b := by
        intro a b hab
        exact hn a b (by rw [hab]; exact List.mem_cons_self _ _)
      have hni : ∀ a b, Event.targetClose a b ∉ es := by
        intro a b hmem
        exact hn a b (List.mem_cons_of_mem _ hmem)
      obtain ⟨h1, h2⟩ := noTargetClose_step_info e s hp hne
      obtain ⟨g1, g2⟩ := ih (step e s) h1 hni
      refine ⟨g1, ?_⟩
      rcases g2 with g2 | ⟨g2, gm⟩
      · rw [run_cons, g2]
        rcases h2 with h2 | ⟨h2, hef⟩
        · exact Or.inl h2
        · exact Or.inr ⟨h2, by rw [hef]; exact List.mem_cons_self _ _⟩
      · exact Or.inr ⟨by rw [run_cons]; exact g2, List.mem_cons_of_mem _ gm⟩

theorem buffer_run (fs : List Frame) (s : SessionState)
    (hp : s.proxyReady = ReadyState.OPEN) (ht : s.targetReady = ReadyState.CONNECTING)
    (hlen : s.pendingMessages.length + fs.length ≤ MAX_PENDING_MESSAGES) :
    (run (fs.map fun f => Event.clientMessage f true) s).pendingMessages =
        s.pendingMessages ++ fs ∧
    (run (fs.map fun f => Event.clientMessage f true) s).targetReady =
        ReadyState.CONNECTING ∧
    (run (fs.map fun f => Event.clientMessage f true) s).proxyReady = ReadyState.OPEN ∧
    (run (fs.map fun f => Event.clientMessage f true) s).sentToTarget = s.sentToTarget ∧
    (run (fs.map fun f => Event.clientMessage f true) s).sentToClient = s.sentToClient ∧
    (run (fs.map fun f => Event.clientMessage f true) s).timerActive = s.timerActive ∧
    (run (fs.map fun f => Event.clientMessage f true) s).opened = s.opened ∧
    (run (fs.map fun f => Event.clientMessage f true) s).proxyCloseInfo =
        s.proxyCloseInfo ∧
    (run (fs.map fun f => Event.clientMessage f true) s).targetCloseInfo =
        s.targetCloseInfo := by
  induction fs generalizing s with
  | nil => simp [run, hp, ht]
  | cons f fs ih =>
      have hnotfull : ¬ (MAX_PENDING_MESSAGES ≤ s.pendingMessages.length) := by
        simp only [List.length_cons] at hlen
        omega
      have hstep : step (Event.clientMessage f true) s =
          { s with clientArrived := true,
                   pendingMessages := s.pendingMessages ++ [f] } := by
        simp [step, onProxyMessage, hp, ht, hnotfull]
      have hr := ih { s with clientArrived := true,
                             pendingMessages := s.pendingMessages ++ [f] }
        (by simp [hp]) (by simp [ht])
        (by simp only [List.length_append, List.length_cons, List.length_nil] at hlen ⊢; omega)
      simp only [List.map_cons, run_cons, hstep]
      simpa [List.append_assoc] using hr

theorem open_step_all_ok (s : SessionState) (ht : s.targetReady = ReadyState.CONNECTING) :
    step (Event.targetOpen fun _ => true) s =
      { s with targetReady := ReadyState.OPEN, timerActive := false, opened := true,
               sentToTarget := s.sentToTarget ++ s.pendingMessages,
               pendingMessages := [] } := by
  simp [step, ht, onTargetOpen, drainOk_all_true]

theorem passthrough_client_run (fs : List Frame) (s : SessionState)
    (hp : s.proxyReady = ReadyState.OPEN) (ht : s.targetReady = ReadyState.OPEN) :
    (run (fs.map fun f => Event.clientMessage f true) s).sentToTarget =
        s.sentToTarget ++ fs ∧
    (run (fs.map fun f => Event.clientMessage f true) s).proxyReady = ReadyState.OPEN ∧
    (run (fs.map fun f => Event.clientMessage f true) s).targetReady = ReadyState.OPEN ∧
    (run (fs.map fun f => Event.clientMessage f true) s).sentToClient = s.sentToClient ∧
    (run (fs.map fun f => Event.clientMessage f true) s).pendingMessages =
        s.pendingMessages := by
  induction fs generalizing s with
  | nil => simp [run, hp, ht]
  | cons f fs ih =>
      have hstep : step (Event.clientMessage f true) s =
          { s with clientArrived := true,
                   sentToTarget := s.sentToTarget ++ [f] } := by
        simp [step, onProxyMessage, hp, ht]
      have hr := ih { s with clientArrived := true,
                             sentToTarget := s.sentToTarget ++ [f] }
        (by simp [hp]) (by simp [ht])
      simp only [List.map_cons, run_cons, hstep]
      simpa [List.append_assoc] using hr

theorem passthrough_target_run (fs : List Frame) (s : SessionState)
    (hp : s.proxyReady = ReadyState.OPEN) (ht : s.targetReady = ReadyState.OPEN) :
    (run (fs.map fun f => Event.targetMessage f true) s).sentToClient =
        s.sentToClient ++ fs ∧
    (run (fs.map fun f => Event.targetMessage f true) s).proxyReady = ReadyState.OPEN ∧
    (run (fs.map fun f => Event.targetMessage f true) s).targetReady = ReadyState.OPEN ∧
    (run (fs.map fun f => Event.targetMessage f true) s).sentToTarget =
        s.sentToTarget := by
  induction fs generalizing s with
  | nil => simp [run, hp, ht]
  | cons f fs ih =>
      have hstep : step (Event.targetMessage f true) s =
          { s with sentToClient := s.sentToClient ++ [f] } := by
        simp [step, onTargetMessage, hp, ht]
      have hr := ih { s with sentToClient := s.sentToClient ++ [f] }
        (by simp [hp]) (by simp [ht])
      simp only [List.map_cons, run_cons, hstep]
      simpa [List.append_assoc] using hr

theorem overflow_step (f : Frame) (ok : Bool) (s : SessionState)
    (hp : s.proxyReady = ReadyState.OPEN) (ht : s.targetReady ≠ ReadyState.OPEN)
    (hful : MAX_PENDING_MESSAGES ≤ s.pendingMessages.length) :
    (step (Event.clientMessage f ok) s).proxyReady = ReadyState.CLOSED ∧
    (step (Event.clientMessage f ok) s).proxyCloseInfo =
      some (1008, "Too many pending messages") ∧
    (step (Event.clientMessage f ok) s).pendingMessages = s.pendingMessages ∧
    (step (Event.clientMessage f ok) s).sentToTarget = s.sentToTarget := by
  refine ⟨?_, ?_, ?_, ?_⟩ <;>
    simp [step, onProxyMessage, closeProxySocket, hp, ht, hful]

/-- C1: if `MAX_PENDING + 1` (11) client frames arrive while the upstream
socket has not yet opened, the pending buffer never holds more than
`MAX_PENDING` (10) frames, the client socket is closed with
policy-violation code 1008, and at most `MAX_PENDING` frames are ever sent
to the upstream socket, whatever happens afterwards. -/
theorem C1_bounded_buffering (f0 f1 f2 f3 f4 f5 f6 f7 f8 f9 f10 : Frame)
    (es : List Event) :
    (run ([f0, f1, f2, f3, f4, f5, f6, f7, f8, f9, f10].map
        fun f => Event.clientMessage f true) initialState).pendingMessages.length =
      MAX_PENDING_MESSAGES ∧
    (run ([f0, f1, f2, f3, f4, f5, f6, f7, f8, f9, f10].map
        fun f => Event.clientMessage f true) initialState).proxyReady =
      ReadyState.CLOSED ∧
    (run ([f0, f1, f2, f3, f4, f5, f6, f7, f8, f9, f10].map
        fun f => Event.clientMessage f true) initialState).proxyCloseInfo =
      some (1008, "Too many pending messages") ∧
    (run es (run ([f0, f1, f2, f3, f4, f5, f6, f7, f8, f9, f10].map
        fun f => Event.clientMessage f true) initialState)).sentToTarget.length ≤
      MAX_PENDING_MESSAGES ∧
    (run es (run ([f0, f1, f2, f3, f4, f5, f6, f7, f8, f9, f10].map
        fun f => Event.clientMessage f true) initialState)).pendingMessages.length ≤
      MAX_PENDING_MESSAGES ∧
    (∀ es0 : List Event,
      (run es0 initialState).pendingMessages.length ≤ MAX_PENDING_MESSAGES) := by
  obtain ⟨b1, b2, b3, b4, b5, b6, b7, b8, b9⟩ :=
    buffer_run [f0, f1, f2, f3, f4, f5, f6, f7, f8, f9] initialState rfl rfl
      (by simp [initialState, MAX_PENDING_MESSAGES])
  simp only [List.map_cons, List.map_nil] at b1 b2 b3 b4
  have hsplit : run [Event.clientMessage f0 true, Event.clientMessage f1 true, Event.clientMessage f2 true, Event.clientMessage f3 true, Event.clientMessage f4 true, Event.clientMessage f5 true, Event.clientMessage f6 true, Event.clientMessage f7 true, Event.clientMessage f8 true, Event.clientMessage f9 true, Event.clientMessage f10 true] initialState =
      step (Event.clientMessage f10 true) (run [Event.clientMessage f0 true, Event.clientMessage f1 true, Event.clientMessage f2 true, Event.clientMessage f3 true, Event.clientMessage f4 true, Event.clientMessage f5 true, Event.clientMessage f6 true, Event.clientMessage f7 true, Event.clientMessage f8 true, Event.clientMessage f9 true] initialState) := by
    rw [show ([Event.clientMessage f0 true, Event.clientMessage f1 true, Event.clientMessage f2 true, Event.clientMessage f3 true, Event.clientMessage f4 true, Event.clientMessage f5 true, Event.clientMessage f6 true, Event.clientMessage f7 true, Event.clientMessage f8 true, Event.clientMessage f9 true, Event.clientMessage f10 true] : List Event) =
        [Event.clientMessage f0 true, Event.clientMessage f1 true, Event.clientMessage f2 true, Event.clientMessage f3 true, Event.clientMessage f4 true, Event.clientMessage f5 true, Event.clientMessage f6 true, Event.clientMessage f7 true, Event.clientMessage f8 true, Event.clientMessage f9 true] ++ [Event.clientMessage f10 true] from rfl, run_append]
    simp [run]
  have hlen10 : (run [Event.clientMessage f0 true, Event.clientMessage f1 true, Event.clientMessage f2 true, Event.clientMessage f3 true, Event.clientMessage f4 true, Event.clientMessage f5 true, Event.clientMessage f6 true, Event.clientMessage f7 true, Event.clientMessage f8 true, Event.clientMessage f9 true] initialState).pendingMessages.length =
      MAX_PENDING_MESSAGES := by
    rw [b1]
    rfl
  obtain ⟨o1, o2, o3, o4⟩ := overflow_step f10 true (run [Event.clientMessage f0 true, Event.clientMessage f1 true, Event.clientMessage f2 true, Event.clientMessage f3 true, Event.clientMessage f4 true, Event.clientMessage f5 true, Event.clientMessage f6 true, Event.clientMessage f7 true, Event.clientMessage f8 true, Event.clientMessage f9 true] initialState) b3
    (by simp [b2]) (le_of_eq hlen10.symm)
  have h1 : (run [Event.clientMessage f0 true, Event.clientMessage f1 true, Event.clientMessage f2 true, Event.clientMessage f3 true, Event.clientMessage f4 true, Event.clientMessage f5 true, Event.clientMessage f6 true, Event.clientMessage f7 true, Event.clientMessage f8 true, Event.clientMessage f9 true, Event.clientMessage f10 true] initialState).sentToTarget = initialState.sentToTarget := by
    rw [hsplit, o4]
    exact b4
  have h2 : (run [Event.clientMessage f0 true, Event.clientMessage f1 true, Event.clientMessage f2 true, Event.clientMessage f3 true, Event.clientMessage f4 true, Event.clientMessage f5 true, Event.clientMessage f6 true, Event.clientMessage f7 true, Event.clientMessage f8 true, Event.clientMessage f9 true, Event.clientMessage f10 true] initialState).pendingMessages =
      initialState.pendingMessages ++ [f0, f1, f2, f3, f4, f5, f6, f7, f8, f9] := by
    rw [hsplit, o3]
    exact b1
  have h3 : (run [Event.clientMessage f0 true, Event.clientMessage f1 true, Event.clientMessage f2 true, Event.clientMessage f3 true, Event.clientMessage f4 true, Event.clientMessage f5 true, Event.clientMessage f6 true, Event.clientMessage f7 true, Event.clientMessage f8 true, Event.clientMessage f9 true, Event.clientMessage f10 true] initialState).proxyReady = ReadyState.CLOSED := by
    rw [hsplit]
    exact o1
  have h4 : (run [Event.clientMessage f0 true, Event.clientMessage f1 true, Event.clientMessage f2 true, Event.clientMessage f3 true, Event.clientMessage f4 true, Event.clientMessage f5 true, Event.clientMessage f6 true, Event.clientMessage f7 true, Event.clientMessage f8 true, Event.clientMessage f9 true, Event.clientMessage f10 true] initialState).proxyCloseInfo =
      some (1008, "Too many pending messages") := by
    rw [hsplit]
    exact o2
  obtain ⟨hcl, hsum⟩ := proxyClosed_run es (run [Event.clientMessage f0 true, Event.clientMessage f1 true, Event.clientMessage f2 true, Event.clientMessage f3 true, Event.clientMessage f4 true, Event.clientMessage f5 true, Event.clientMessage f6 true, Event.clientMessage f7 true, Event.clientMessage f8 true, Event.clientMessage f9 true, Event.clientMessage f10 true] initialState) h3
  have hbound : (run [Event.clientMessage f0 true, Event.clientMessage f1 true, Event.clientMessage f2 true, Event.clientMessage f3 true, Event.clientMessage f4 true, Event.clientMessage f5 true, Event.clientMessage f6 true, Event.clientMessage f7 true, Event.clientMessage f8 true, Event.clientMessage f9 true, Event.clientMessage f10 true] initialState).sentToTarget.length +
      (run [Event.clientMessage f0 true, Event.clientMessage f1 true, Event.clientMessage f2 true, Event.clientMessage f3 true, Event.clientMessage f4 true, Event.clientMessage f5 true, Event.clientMessage f6 true, Event.clientMessage f7 true, Event.clientMessage f8 true, Event.clientMessage f9 true, Event.clientMessage f10 true] initialState).pendingMessages.length ≤ 10 := by
    rw [h1, h2]
    simp [initialState]
  refine ⟨?_, ?_, ?_, ?_, ?_, ?_⟩
  · simp only [List.map_cons, List.map_nil]
    rw [h2]
    rfl
  · simp only [List.map_cons, List.map_nil]
    exact h3
  · simp only [List.map_cons, List.map_nil]
    exact h4
  · simp only [List.map_cons, List.map_nil, MAX_PENDING_MESSAGES]
    omega
  · simp only [List.map_cons, List.map_nil, MAX_PENDING_MESSAGES]
    omega
  · intro es0
    exact (inv_run es0 initialState inv_initialState).1

/-- C2 counterexample: the claim quantifies over every sequence of N frames
sent while upstream is connecting, but for N = 11 the eleventh frame
overflows the buffer, so after upstream opens it receives only 10 frames,
not the 11 that arrived. -/
theorem C2_counterexample :
    (run (((List.range 11).map fun i => Event.clientMessage (Frame.binary [i]) true) ++
        [Event.targetOpen fun _ => true]) initialState).sentToTarget ≠
      (List.range 11).map (fun i => Frame.binary [i]) ∧
    (run (((List.range 11).map fun i => Event.clientMessage (Frame.binary [i]) true) ++
        [Event.targetOpen fun _ => true]) initialState).sentToTarget.length =
      MAX_PENDING_MESSAGES := by
  decide

/-- C2 (amended): for every sequence of at most `MAX_PENDING` client frames
sent while the upstream socket is connecting, once the upstream socket
opens it receives exactly those frames in their original arrival order,
followed by any post-open client frames in their arrival order; in
pass-through mode each inbound frame yields exactly one outbound send with
no reordering, batching or coalescing. -/
theorem C2_order_preservation (pre post ups : List Frame)
    (hpre : pre.length ≤ MAX_PENDING_MESSAGES) :
    (run ((pre.map fun f => Event.clientMessage f true) ++
        [Event.targetOpen fun _ => true] ++
        (post.map fun f => Event.clientMessage f true)) initialState).sentToTarget =
      pre ++ post ∧
    (run (ups.map fun f => Event.targetMessage f true)
        (run ((pre.map fun f => Event.clientMessage f true) ++
          [Event.targetOpen fun _ => true] ++
          (post.map fun f => Event.clientMessage f true)) initialState)).sentToClient =
      ups := by
  have hrw : run ((pre.map fun f => Event.clientMessage f true) ++
      [Event.targetOpen fun _ => true] ++
      (post.map fun f => Event.clientMessage f true)) initialState =
      run (post.map fun f => Event.clientMessage f true)
        (step (Event.targetOpen fun _ => true)
          (run (pre.map fun f => Event.clientMessage f true) initialState)) := by
    rw [run_append, run_append]
    rfl
  obtain ⟨b1, b2, b3, b4, b5, b6, b7, b8, b9⟩ :=
    buffer_run pre initialState rfl rfl (by simpa [initialState] using hpre)
  have hopen := open_step_all_ok
    (run (pre.map fun f => Event.clientMessage f true) initialState) b2
  have h2p : (step (Event.targetOpen fun _ => true)
      (run (pre.map fun f => Event.clientMessage f true) initialState)).proxyReady =
      ReadyState.OPEN := by
    rw [hopen]
    exact b3
  have h2t : (step (Event.targetOpen fun _ => true)
      (run (pre.map fun f => Event.clientMessage f true) initialState)).targetReady =
      ReadyState.OPEN := by
    rw [hopen]
  obtain ⟨p1, p2, p3, p4, p5⟩ := passthrough_client_run post
    (step (Event.targetOpen fun _ => true)
      (run (pre.map fun f => Event.clientMessage f true) initialState)) h2p h2t
  obtain ⟨q1, q2, q3, q4⟩ := passthrough_target_run ups
    (run (post.map fun f => Event.clientMessage f true)
      (step (Event.targetOpen fun _ => true)
        (run (pre.map fun f => Event.clientMessage f true) initialState))) p2 p3
  have b1x : (run (pre.map fun f => Event.clientMessage f true)
      initialState).pendingMessages = pre := by
    rw [b1]
    rfl
  have b4x : (run (pre.map fun f => Event.clientMessage f true)
      initialState).sentToTarget = [] := by
    rw [b4]
    rfl
  have b5x : (run (pre.map fun f => Event.clientMessage f true)
      initialState).sentToClient = [] := by
    rw [b5]
    rfl
  constructor
  · rw [hrw, p1, hopen]
    simp [b1x, b4x]
  · rw [hrw, q1, p4, hopen]
    simp [b5x]

/-- Witness for C2 (amended): one buffered frame, one post-open frame and
one upstream frame relay in order. -/
theorem C2_order_preservation_witness :
    (run (([Frame.text "p"].map fun f => Event.clientMessage f true) ++
        [Event.targetOpen fun _ => true] ++
        ([Frame.text "q"].map fun f => Event.clientMessage f true))
        initialState).sentToTarget = [Frame.text "p"] ++ [Frame.text "q"] ∧
    (run ([Frame.text "u"].map fun f => Event.targetMessage f true)
        (run (([Frame.text "p"].map fun f => Event.clientMessage f true) ++
          [Event.targetOpen fun _ => true] ++
          ([Frame.text "q"].map fun f => Event.clientMessage f true))
          initialState)).sentToClient = [Frame.text "u"] :=
  C2_order_preservation [Frame.text "p"] [Frame.text "q"] [Frame.text "u"] (by decide)

/-- C3 counterexample: when the establishment timer fires with an empty
buffer the upstream close reason is the capitalised string
"No activity after connection", not the claimed lowercase
"no activity after connection". -/
theorem C3_counterexample :
    (step Event.timerFire initialState).targetCloseInfo =
      some (1000, "No activity after connection") ∧
    (step Event.timerFire initialState).targetCloseInfo ≠
      some (1000, "no activity after connection") := by
  decide

/-- C3 (amended): if the establishment timer fires while the pending buffer
is empty, the upstream connection is closed with normal-closure code 1000
and reason "No activity after connection" (a no-op if it is already
closed); if the buffer is non-empty when the timer fires, the timer only
expires without any action. -/
theorem C3_establishment_timer (s : SessionState) (ht : s.timerActive = true) :
    (s.pendingMessages = [] → s.targetReady ≠ ReadyState.CLOSED →
      step Event.timerFire s =
        { s with
          timerActive := false
          targetReady := ReadyState.CLOSED
          targetCloseInfo := some (1000, "No activity after connection") }) ∧
    (s.pendingMessages = [] → s.targetReady = ReadyState.CLOSED →
      step Event.timerFire s = { s with timerActive := false }) ∧
    (s.pendingMessages ≠ [] →
      step Event.timerFire s = { s with timerActive := false }) := by
  refine ⟨?_, ?_, ?_⟩
  · intro h1 h2
    simp [step, ht, onTimeout, closeTargetSocket, h1, h2]
  · intro h1 h2
    simp [step, ht, onTimeout, closeTargetSocket, h1, h2]
  · intro h1
    simp [step, ht, onTimeout, List.length_eq_zero, h1]

/-- Witness for C3 (amended): from the initial state (armed timer, empty
buffer, upstream connecting) the timer firing closes upstream with
1000 / "No activity after connection". -/
theorem C3_establishment_timer_witness :
    step Event.timerFire initialState =
      { initialState with
        timerActive := false
        targetReady := ReadyState.CLOSED
        targetCloseInfo := some (1000, "No activity after connection") } :=
  (C3_establishment_timer initialState rfl).1 rfl (by decide)

/-- C4: in every session in which at least one client frame arrived before
the establishment timer fires, the timer firing changes nothing but the
timer itself: both sockets keep their readiness and close information. -/
theorem C4_liveness_overrides_timeout (es : List Event)
    (ha : (run es initialState).clientArrived = true)
    (htm : (run es initialState).timerActive = true) :
    step Event.timerFire (run es initialState) =
      { (run es initialState) with timerActive := false } := by
  obtain ⟨h1, h2, h3, h4, h5⟩ := inv_run es initialState inv_initialState
  have hne := h4 htm ha
  simp [step, htm, onTimeout, List.length_eq_zero, hne]

/-- Witness for C4: after one buffered client frame the timer firing only
expires the timer. -/
theorem C4_liveness_overrides_timeout_witness :
    step Event.timerFire (run [Event.clientMessage (Frame.text "hello") true] initialState) =
      { (run [Event.clientMessage (Frame.text "hello") true] initialState) with
        timerActive := false } :=
  C4_liveness_overrides_timeout [Event.clientMessage (Frame.text "hello") true] rfl rfl

/-- C5 counterexample: an error event on the upstream socket while both
sockets are open closes nothing — the error listener only logs — so the
claim that a close or error event on either socket triggers a close of the
other socket is false for error events. -/
theorem C5_counterexample :
    (step (Event.targetOpen fun _ => true) initialState).proxyReady = ReadyState.OPEN ∧
    (step (Event.targetOpen fun _ => true) initialState).targetReady = ReadyState.OPEN ∧
    step Event.targetError (step (Event.targetOpen fun _ => true) initialState) =
      step (Event.targetOpen fun _ => true) initialState ∧
    (step Event.targetError
        (step (Event.targetOpen fun _ => true) initialState)).proxyCloseInfo = none :=
  ⟨rfl, rfl, rfl, rfl⟩

/-- C5 (amended): a close event on either socket triggers a close of the
other socket using the same code and reason, provided the other socket is
still open at that moment; an error event on the upstream socket is only
logged and closes nothing. -/
theorem C5_mirrored_close (s : SessionState) (c : Nat) (r : String) :
    (s.targetReady ≠ ReadyState.CLOSED → s.proxyReady = ReadyState.OPEN →
      (step (Event.targetClose c r) s).proxyReady = ReadyState.CLOSED ∧
      (step (Event.targetClose c r) s).proxyCloseInfo = some (c, r)) ∧
    (s.proxyReady ≠ ReadyState.CLOSED → s.targetReady = ReadyState.OPEN →
      (step (Event.clientClose c r) s).targetReady = ReadyState.CLOSED ∧
      (step (Event.clientClose c r) s).targetCloseInfo = some (c, r)) ∧
    step Event.targetError s = s := by
  refine ⟨?_, ?_, rfl⟩
  · intro h1 h2
    simp [step, h1, h2, onTargetClose, closeProxySocket]
  · intro h1 h2
    simp [step, h1, h2, onProxyClose, closeTargetSocket]

/-- Witness for C5 (amended): an upstream close 1000/"bye" from the initial
state closes the client socket with the same code and reason. -/
theorem C5_mirrored_close_witness :
    (step (Event.targetClose 1000 "bye") initialState).proxyReady =
      ReadyState.CLOSED ∧
    (step (Event.targetClose 1000 "bye") initialState).proxyCloseInfo =
      some (1000, "bye") :=
  (C5_mirrored_close initialState 1000 "bye").1 (by decide) rfl

/-- C6: the pending buffer's length never exceeds `MAX_PENDING`, and after
the first drain on the upstream open transition the buffer stays empty
forever: no frame is ever appended to it again for the remainder of the
session, regardless of later upstream state changes. -/
theorem C6_buffer_invariant (es es2 : List Event) :
    (run es initialState).pendingMessages.length ≤ MAX_PENDING_MESSAGES ∧
    ((run es initialState).opened = true →
      (run es2 (run es initialState)).pendingMessages = []) := by
  have hInv := inv_run es initialState inv_initialState
  refine ⟨hInv.1, ?_⟩
  intro hop
  have hInv2 := inv_run es2 (run es initialState) hInv
  have hop2 := opened_run es2 (run es initialState) hop
  exact (hInv2.2.2.2.2 hop2).1

/-- Witness for C6: after the open drain, a later upstream frame leaves the
buffer empty. -/
theorem C6_buffer_invariant_witness :
    (run [Event.targetOpen fun _ => true] initialState).pendingMessages.length ≤
      MAX_PENDING_MESSAGES ∧
    (run [Event.targetMessage (Frame.text "x") true]
        (run [Event.targetOpen fun _ => true] initialState)).pendingMessages = [] :=
  ⟨(C6_buffer_invariant [Event.targetOpen fun _ => true]
      [Event.targetMessage (Frame.text "x") true]).1,
   (C6_buffer_invariant [Event.targetOpen fun _ => true]
      [Event.targetMessage (Frame.text "x") true]).2 rfl⟩

/-- C7: a timed-out forwarding call yields a 500 response carrying the
timeout message; a rejection is surfaced verbatim as a plain-text response
with its message as body and its status (500 when unspecified), with
content-type text/plain;charset=UTF-8; the guard is a total function, so
no exception propagates to the caller. -/
theorem C7_api_timeout_guard :
    handleAPIRequest ApiOutcome.timedOut =
      { status := 500, body := "API request timeout",
        contentType := some "text/plain;charset=UTF-8" } ∧
    (∀ (m : String) (n : Nat), n ≠ 0 →
      handleAPIRequest (ApiOutcome.rejected
          { isError := true, message := m, status := some n }) =
        { status := n, body := m, contentType := some "text/plain;charset=UTF-8" }) ∧
    (∀ m : String,
      handleAPIRequest (ApiOutcome.rejected
          { isError := true, message := m, status := none }) =
        { status := 500, body := m, contentType := some "text/plain;charset=UTF-8" }) := by
  refine ⟨rfl, ?_, fun m => rfl⟩
  intro m n hn
  cases n with
  | zero => exact absurd rfl hn
  | succ k => rfl

/-- Witness for C7: a rejection with message "Service Unavailable" and
status 503 is returned verbatim. -/
theorem C7_api_timeout_guard_witness :
    handleAPIRequest (ApiOutcome.rejected
        { isError := true, message := "Service Unavailable", status := some 503 }) =
      { status := 503, body := "Service Unavailable",
        contentType := some "text/plain;charset=UTF-8" } :=
  C7_api_timeout_guard.2.1 "Service Unavailable" 503 (by decide)

/-- C8: a send on either relay leg is suppressed when the destination
socket is not open at that moment; a send that throws is swallowed — the
session state is unchanged except for the arrival-history flag — and a
failing drain send on the open transition never closes either socket. -/
theorem C8_send_guard_and_swallow (s : SessionState) (f : Frame) :
    (s.targetReady ≠ ReadyState.OPEN →
      (step (Event.clientMessage f true) s).sentToTarget = s.sentToTarget) ∧
    (s.proxyReady ≠ ReadyState.OPEN →
      (step (Event.targetMessage f true) s).sentToClient = s.sentToClient) ∧
    (s.proxyReady = ReadyState.OPEN → s.targetReady = ReadyState.OPEN →
      step (Event.clientMessage f false) s = { s with clientArrived := true }) ∧
    step (Event.targetMessage f false) s = s ∧
    (∀ ok : Nat → Bool,
      (step (Event.targetOpen ok) s).proxyReady = s.proxyReady ∧
      (step (Event.targetOpen ok) s).proxyCloseInfo = s.proxyCloseInfo ∧
      (step (Event.targetOpen ok) s).targetCloseInfo = s.targetCloseInfo) := by
  refine ⟨?_, ?_, ?_, ?_, ?_⟩
  · intro h1
    simp only [step, onProxyMessage, closeProxySocket]
    split_ifs <;> simp_all
  · intro h1
    simp only [step, onTargetMessage]
    split_ifs <;> simp_all
  · intro h1 h2
    simp [step, onProxyMessage, h1, h2]
  · simp only [step, onTargetMessage]
    split_ifs <;> simp_all
  · intro ok
    simp only [step, onTargetOpen]
    split_ifs <;> simp_all

/-- Witness for C8: a pre-open client frame adds nothing to the upstream
trace; a throwing upstream forward changes nothing; a throwing post-open
client forward changes only the history flag. -/
theorem C8_send_guard_and_swallow_witness :
    (step (Event.clientMessage (Frame.text "a") true) initialState).sentToTarget =
      initialState.sentToTarget ∧
    step (Event.targetMessage (Frame.text "b") false) initialState = initialState ∧
    step (Event.clientMessage (Frame.text "c") false)
        (step (Event.targetOpen fun _ => true) initialState) =
      { (step (Event.targetOpen fun _ => true) initialState) with clientArrived := true } :=
  ⟨(C8_send_guard_and_swallow initialState (Frame.text "a")).1 (by decide),
   (C8_send_guard_and_swallow initialState (Frame.text "b")).2.2.2.1,
   (C8_send_guard_and_swallow (step (Event.targetOpen fun _ => true) initialState)
      (Frame.text "c")).2.2.1 rfl rfl⟩

/-- C9: every request reaching the socket handling path without declaring
an upgrade to the websocket protocol receives a 400 response with a
descriptive plain-text body (and the router itself only dispatches
websocket-upgrade requests to that path). -/
theorem C9_malformed_upgrade (h : Option String) (hws : h ≠ some "websocket") :
    handleWebSocketGate h =
      some { status := 400, body := "Expected WebSocket connection",
             contentType := none } ∧
    routesToWebSocket h = false := by
  constructor
  · simp [handleWebSocketGate, hws]
  · simp [routesToWebSocket, hws]

/-- Witness for C9: a request upgrading to h2c gets the 400 response. -/
theorem C9_malformed_upgrade_witness :
    handleWebSocketGate (some "h2c") =
      some { status := 400, body := "Expected WebSocket connection",
             contentType := none } ∧
    routesToWebSocket (some "h2c") = false :=
  C9_malformed_upgrade (some "h2c") (by decide)

/-- C10: if the client socket closes while the upstream socket is still
connecting, the close mirror does not touch the upstream socket, and in any
continuation without a remote upstream close the upstream close information
can only become 1000 / "No activity after connection", and only through a
firing of the establishment timer. -/
theorem C10_client_close_while_connecting (s : SessionState) (c : Nat) (r : String)
    (es : List Event)
    (hp : s.proxyReady = ReadyState.OPEN)
    (ht : s.targetReady = ReadyState.CONNECTING)
    (hi : s.targetCloseInfo = none)
    (hn : ∀ a b, Event.targetClose a b ∉ es) :
    (step (Event.clientClose c r) s).targetReady = ReadyState.CONNECTING ∧
    (step (Event.clientClose c r) s).targetCloseInfo = none ∧
    ((run es (step (Event.clientClose c r) s)).targetCloseInfo = none ∨
      ((run es (step (Event.clientClose c r) s)).targetCloseInfo =
          some (1000, "No activity after connection") ∧ Event.timerFire ∈ es)) := by
  have hstep : step (Event.clientClose c r) s =
      { s with proxyReady := ReadyState.CLOSED, proxyCloseInfo := some (c, r) } := by
    simp [step, hp, onProxyClose, ht]
  refine ⟨by rw [hstep]; exact ht, by rw [hstep]; exact hi, ?_⟩
  obtain ⟨g1, g2⟩ := noTargetClose_run_info es (step (Event.clientClose c r) s)
    (by rw [hstep]) hn
  rcases g2 with g2 | g2
  · left
    rw [g2, hstep]
    exact hi
  · right
    exact g2

/-- Witness for C10: the client closing from the initial state leaves the
upstream connecting, and a later timer firing closes it with
1000 / "No activity after connection". -/
theorem C10_client_close_while_connecting_witness :
    (step (Event.clientClose 1000 "bye") initialState).targetReady =
      ReadyState.CONNECTING ∧
    (step (Event.clientClose 1000 "bye") initialState).targetCloseInfo = none ∧
    ((run [Event.timerFire]
        (step (Event.clientClose 1000 "bye") initialState)).targetCloseInfo = none ∨
      ((run [Event.timerFire]
          (step (Event.clientClose 1000 "bye") initialState)).targetCloseInfo =
          some (1000, "No activity after connection") ∧
        Event.timerFire ∈ [Event.timerFire])) :=
  C10_client_close_while_connecting initialState 1000 "bye" [Event.timerFire] rfl rfl rfl
    (by intro a b hmem; simp at hmem)

end GeminiPlayground
